import Mathlib

/-!
Shallow embedding of the order-lifecycle and payment-reconciliation core of
the directToVet repository (src/app), together with proofs of the spec's
claims about it.

Conventions of the embedding:
* `Decimal` amounts are embedded as `Rat`.
* `datetime` values are embedded as `Int` (seconds); the implicit
  `datetime.utcnow()` at each operation is passed explicitly as `now`.
* The spreadsheet-backed order store (src/app/infra/sheets.py) is embedded as
  a keyed map `String → Option Order`; its row-update helpers are embedded as
  pure functions returning the updated map together with the `bool` the
  source returns.
* Network calls (Mercado Pago API, token refresh) are embedded as
  environment fields holding the response the call would produce
  (`Option _`, with `none` standing for a non-2xx response or a raised
  exception, which the source maps to `None` / an error result).
* Fire-and-forget side effects that no claim mentions (emails, WhatsApp
  sends, customer upserts) are either elided or tracked as event lists
  where a claim needs them.
-/

namespace DirectToVet

/-- Order states, from `OrderStatus` in src/app/models/schemas.py. -/
inductive OrderStatus where
  | CREATED
  | PAYMENT_PENDING_MP
  | PAYMENT_AT_VET
  | PAYMENT_APPROVED
  | PAYMENT_REJECTED
  | PREPARING
  | READY_FOR_PICKUP
  | OUT_FOR_DELIVERY
  | DELIVERED
  | CANCELLED
  | COMPLETED
  | PAYMENT_PENDING
deriving DecidableEq, Repr

/-- Mercado Pago payment states, from `MPPaymentStatus` in schemas.py. -/
inductive MPPaymentStatus where
  | PENDING
  | APPROVED
  | AUTHORIZED
  | IN_PROCESS
  | IN_MEDIATION
  | REJECTED
  | CANCELLED
  | REFUNDED
  | CHARGED_BACK
deriving DecidableEq, Repr

/-- Delivery modes, from `DeliveryMode` in schemas.py. -/
inductive DeliveryMode where
  | PICKUP
  | DELIVERY
deriving DecidableEq, Repr

/-- Payment methods, from `PaymentMethod` in schemas.py. -/
inductive PaymentMethod where
  | MERCADOPAGO
  | AT_VET
deriving DecidableEq, Repr

/-- Cart line item, from `CartItem` in schemas.py.  The pydantic constraints
(`quantity ≥ 1`, `unit_price ≥ 0`) are stated as hypotheses where needed. -/
structure CartItem where
  product_sku : String
  product_name : String
  quantity : Nat
  unit_price : Rat
  currency : String
deriving DecidableEq, Repr

/-- Line subtotal, from the `CartItem.subtotal` property: `unit_price * quantity`. -/
def CartItem.subtotal (i : CartItem) : Rat :=
  i.unit_price * (i.quantity : Rat)

/-- Session cart, from `CartSummary` in schemas.py. -/
structure CartSummary where
  items : List CartItem
  currency : String
deriving DecidableEq, Repr

/-- Cart total, from the `CartSummary.total_amount` property: sum of line subtotals. -/
def CartSummary.total_amount (c : CartSummary) : Rat :=
  (c.items.map CartItem.subtotal).sum

/-- Cart emptiness, from the `CartSummary.is_empty` property. -/
def CartSummary.is_empty (c : CartSummary) : Bool :=
  c.items.length = 0

/-- Validated customer data, from `CustomerData` in schemas.py.  The
pydantic validation itself (field lengths, phonenumbers parsing) happens in
an external library and is embedded as an `Option CustomerData` environment
field at the call site. -/
structure CustomerData where
  name : String
  lastname : String
  email : String
  whatsapp_e164 : String
deriving DecidableEq, Repr

/-- Delivery data, from `DeliveryData` in schemas.py. -/
structure DeliveryData where
  mode : DeliveryMode
  address : Option String
  zone : Option String
deriving DecidableEq, Repr

/-- Order aggregate, from `Order` in schemas.py. -/
structure Order where
  order_id : String
  vet_id : String
  customer : CustomerData
  delivery : DeliveryData
  items : List CartItem
  subtotal : Rat
  shipping_cost : Rat
  total_amount : Rat
  currency : String
  status : OrderStatus
  payment_method : Option PaymentMethod
  mp_preference_id : Option String
  mp_payment_id : Option String
  mp_status : Option MPPaymentStatus
  external_reference : Option String
  created_at : Int
  updated_at : Int
deriving DecidableEq, Repr

/-- Stored OAuth token, from `StoredToken` in schemas.py. -/
structure StoredToken where
  vet_id : String
  access_token : String
  refresh_token : String
  expires_at : Int
  mp_user_id : String
  updated_at : Int
deriving DecidableEq, Repr

/-- Mapping of Mercado Pago payment status strings to `OrderStatus`, from
`_map_mp_status_to_order_status` in src/app/webhooks/mercadopago.py: a
`dict` lookup with `PAYMENT_PENDING_MP` as the `.get` default. -/
def map_mp_status_to_order_status (mp_status : String) : OrderStatus :=
  if mp_status = "approved" then OrderStatus.PAYMENT_APPROVED
  else if mp_status = "pending" then OrderStatus.PAYMENT_PENDING_MP
  else if mp_status = "in_process" then OrderStatus.PAYMENT_PENDING_MP
  else if mp_status = "rejected" then OrderStatus.PAYMENT_REJECTED
  else if mp_status = "cancelled" then OrderStatus.CANCELLED
  else if mp_status = "refunded" then OrderStatus.CANCELLED
  else OrderStatus.PAYMENT_PENDING_MP

/-- Mapping of Mercado Pago payment status strings to `MPPaymentStatus`, from
`_map_mp_status` in src/app/webhooks/mercadopago.py: a `dict` lookup with
`PENDING` as the `.get` default. -/
def map_mp_status (mp_status : String) : MPPaymentStatus :=
  if mp_status = "approved" then MPPaymentStatus.APPROVED
  else if mp_status = "pending" then MPPaymentStatus.PENDING
  else if mp_status = "in_process" then MPPaymentStatus.IN_PROCESS
  else if mp_status = "rejected" then MPPaymentStatus.REJECTED
  else if mp_status = "cancelled" then MPPaymentStatus.CANCELLED
  else if mp_status = "refunded" then MPPaymentStatus.REFUNDED
  else MPPaymentStatus.PENDING

/-- C1: the processor-status to order-status mapping is the total function:
"approved" maps to PAYMENT_APPROVED, "pending" and "in_process" map to
PAYMENT_PENDING_MP, "rejected" maps to PAYMENT_REJECTED, "cancelled" and
"refunded" map to CANCELLED, and every other input string maps to
PAYMENT_PENDING_MP. -/
theorem C1_mp_status_mapping_total (s : String)
    (h1 : s ≠ "approved") (h2 : s ≠ "pending") (h3 : s ≠ "in_process")
    (h4 : s ≠ "rejected") (h5 : s ≠ "cancelled") (h6 : s ≠ "refunded") :
    map_mp_status_to_order_status "approved" = OrderStatus.PAYMENT_APPROVED
    ∧ map_mp_status_to_order_status "pending" = OrderStatus.PAYMENT_PENDING_MP
    ∧ map_mp_status_to_order_status "in_process" = OrderStatus.PAYMENT_PENDING_MP
    ∧ map_mp_status_to_order_status "rejected" = OrderStatus.PAYMENT_REJECTED
    ∧ map_mp_status_to_order_status "cancelled" = OrderStatus.CANCELLED
    ∧ map_mp_status_to_order_status "refunded" = OrderStatus.CANCELLED
    ∧ map_mp_status_to_order_status s = OrderStatus.PAYMENT_PENDING_MP := by
  refine ⟨by decide, by decide, by decide, by decide, by decide, by decide, ?_⟩
  simp only [map_mp_status_to_order_status, if_neg h1, if_neg h2, if_neg h3,
    if_neg h4, if_neg h5, if_neg h6]

/-- Witness for C1 at the unrecognized input "charged_back". -/
theorem C1_mp_status_mapping_total_witness :
    map_mp_status_to_order_status "charged_back" = OrderStatus.PAYMENT_PENDING_MP :=
  (C1_mp_status_mapping_total "charged_back" (by decide) (by decide) (by decide)
    (by decide) (by decide) (by decide)).2.2.2.2.2.2

/-- Keyed order store embedding the Orders worksheet that
src/app/infra/sheets.py scans by `order_id`. -/
def OrderStore := String → Option Order

/-- Row update from `update_order_status` in sheets.py: find the row whose
`order_id` matches, write the `status` and `updated_at` cells and return
`True`; return `False` when no row matches. -/
def sheets_update_order_status (store : OrderStore) (order_id : String)
    (new_status : OrderStatus) (now : Int) : Bool × OrderStore :=
  match store order_id with
  | none => (false, store)
  | some o =>
      (true, fun k => if k = order_id
        then some { o with status := new_status, updated_at := now }
        else store k)

/-- Row update from `update_order_payment_status` in sheets.py: find the row
whose `order_id` matches, write the `mp_payment_id`, `mp_status`, `status`
and `updated_at` cells and return `True`; return `False` when no row
matches. -/
def sheets_update_order_payment_status (store : OrderStore) (order_id : String)
    (mp_payment_id : String) (mp_status : MPPaymentStatus) (status : OrderStatus)
    (now : Int) : Bool × OrderStore :=
  match store order_id with
  | none => (false, store)
  | some o =>
      (true, fun k => if k = order_id
        then some { o with mp_payment_id := some mp_payment_id,
                           mp_status := some mp_status,
                           status := status, updated_at := now }
        else store k)

/-- Row update from `update_order_preference` in sheets.py: find the row
whose `order_id` matches, write the `mp_preference_id`, `external_reference`
and `payment_method` (MERCADOPAGO) cells, set `status` to
PAYMENT_PENDING_MP, write `updated_at` and return `True`; return `False`
when no row matches. -/
def update_order_preference (store : OrderStore) (order_id : String)
    (preference_id : String) (external_reference : String) (now : Int) :
    Bool × OrderStore :=
  match store order_id with
  | none => (false, store)
  | some o =>
      (true, fun k => if k = order_id
        then some { o with mp_preference_id := some preference_id,
                           external_reference := some external_reference,
                           payment_method := some PaymentMethod.MERCADOPAGO,
                           status := OrderStatus.PAYMENT_PENDING_MP,
                           updated_at := now }
        else store k)

/-- Result discriminator of `cancel_order` in src/app/tools/orders.py. -/
inductive CancelStatus where
  | cancelled
  | not_found
  | already_cancelled
  | cannot_cancel
  | error
deriving DecidableEq, Repr

/-- Embedding of `cancel_order` from src/app/tools/orders.py: look the order
up, reject when already CANCELLED, reject when the status is in the
non-cancellable list [DELIVERED, COMPLETED], otherwise write CANCELLED
through `update_order_status`.  The audit event and the fire-and-forget
customer notification only affect the returned message and are elided. -/
def cancel_order (store : OrderStore) (order_id : String) (now : Int) :
    CancelStatus × OrderStore :=
  match store order_id with
  | none => (CancelStatus.not_found, store)
  | some order =>
      if order.status = OrderStatus.CANCELLED then
        (CancelStatus.already_cancelled, store)
      else if order.status = OrderStatus.DELIVERED ∨ order.status = OrderStatus.COMPLETED then
        (CancelStatus.cannot_cancel, store)
      else
        match sheets_update_order_status store order_id OrderStatus.CANCELLED now with
        | (false, _) => (CancelStatus.error, store)
        | (true, store1) => (CancelStatus.cancelled, store1)

/-- Sample customer used by concrete witnesses. -/
def sampleCustomer : CustomerData :=
  { name := "Ana", lastname := "Perez", email := "ana@example.com",
    whatsapp_e164 := "+5491100000000" }

/-- Sample cart line used by concrete witnesses. -/
def sampleItem : CartItem :=
  { product_sku := "A", product_name := "Alimento", quantity := 2,
    unit_price := 100, currency := "ARS" }

/-- Sample freshly created order used by concrete witnesses. -/
def sampleOrder : Order :=
  { order_id := "ORD-1", vet_id := "VET001", customer := sampleCustomer,
    delivery := { mode := DeliveryMode.PICKUP, address := none, zone := none },
    items := [sampleItem], subtotal := 200, shipping_cost := 0, total_amount := 200,
    currency := "ARS", status := OrderStatus.CREATED, payment_method := none,
    mp_preference_id := none, mp_payment_id := none, mp_status := none,
    external_reference := none, created_at := 0, updated_at := 0 }

/-- Sample one-order store used by concrete witnesses. -/
def sampleStore : OrderStore :=
  fun k => if k = "ORD-1" then some sampleOrder else none

/-- C2: for every existing order, cancel_order returns an already-cancelled
rejection iff the status is CANCELLED, a non-cancellable rejection iff the
status is DELIVERED or COMPLETED (in both rejection cases the store is
unchanged), and for every other status it sets the order's status to
CANCELLED. -/
theorem C2_cancel_order_cases (store : OrderStore) (order_id : String) (now : Int)
    (order : Order) (hfound : store order_id = some order) :
    ((cancel_order store order_id now).1 = CancelStatus.already_cancelled
        ↔ order.status = OrderStatus.CANCELLED)
    ∧ ((cancel_order store order_id now).1 = CancelStatus.cannot_cancel
        ↔ (order.status = OrderStatus.DELIVERED ∨ order.status = OrderStatus.COMPLETED))
    ∧ (((cancel_order store order_id now).1 = CancelStatus.already_cancelled
          ∨ (cancel_order store order_id now).1 = CancelStatus.cannot_cancel)
        → (cancel_order store order_id now).2 = store)
    ∧ (order.status ≠ OrderStatus.CANCELLED
        → order.status ≠ OrderStatus.DELIVERED
        → order.status ≠ OrderStatus.COMPLETED
        → (cancel_order store order_id now).1 = CancelStatus.cancelled
          ∧ (cancel_order store order_id now).2 order_id
              = some { order with status := OrderStatus.CANCELLED, updated_at := now }) := by
  by_cases h1 : order.status = OrderStatus.CANCELLED
  · simp [cancel_order, hfound, h1]
  · by_cases h2 : order.status = OrderStatus.DELIVERED ∨ order.status = OrderStatus.COMPLETED
    · rcases h2 with h2 | h2 <;> simp [cancel_order, hfound, h1, h2]
    · simp [cancel_order, hfound, h1, h2, sheets_update_order_status]

/-- Witness for C2: cancelling the sample CREATED order succeeds. -/
theorem C2_cancel_order_cases_witness :
    sampleStore "ORD-1" = some sampleOrder
    ∧ (cancel_order sampleStore "ORD-1" 7).1 = CancelStatus.cancelled :=
  ⟨by decide,
   ((C2_cancel_order_cases sampleStore "ORD-1" 7 sampleOrder (by decide)).2.2.2
      (by decide) (by decide) (by decide)).1⟩

/-- ASCII upper-casing, embedding the Python `str.upper` calls of the core
(which only ever compare against ASCII literals). -/
def pyUpper (s : String) : String :=
  String.mk (s.data.map Char.toUpper)

/-- ASCII lower-casing, embedding the Python `str.lower` calls of the core. -/
def pyLower (s : String) : String :=
  String.mk (s.data.map Char.toLower)

/-- Removal of leading and trailing whitespace, embedding Python `str.strip`. -/
def pyStrip (s : String) : String :=
  String.mk (((s.data.dropWhile Char.isWhitespace).reverse.dropWhile
    Char.isWhitespace).reverse)

/-- Shipping rate lookup from `get_shipping_cost` in src/app/infra/sheets.py:
scan the shipping worksheet rows and return the price of the first row whose
zone column, stripped and lower-cased, equals the stripped lower-cased
query; `none` when no row matches. -/
def get_shipping_cost (table : List (String × Rat)) (zone : String) : Option Rat :=
  (table.find? (fun row => pyLower (pyStrip row.1) == pyLower (pyStrip zone))).map
    Prod.snd

/-- Python truthiness of an `Optional[str]`: `None` and the empty string are
falsy. -/
def truthyStr : Option String → Bool
  | none => false
  | some s => !s.isEmpty

/-- Embedding of `DeliveryMode(delivery_mode.upper())` in create_order:
yields the mode, or `none` for the `ValueError` branch. -/
def parse_delivery_mode (s : String) : Option DeliveryMode :=
  if pyUpper s = "PICKUP" then some DeliveryMode.PICKUP
  else if pyUpper s = "DELIVERY" then some DeliveryMode.DELIVERY
  else none

/-- Environment of `create_order`: the session cart returned by
`get_cart_for_order`, the outcome of the pydantic `CustomerData` validation
(`none` embeds the raised validation exception), the shipping worksheet, the
outcome of `create_order_record`, the generated `ORD-...` id and the clock. -/
structure CreateOrderEnv where
  cart : CartSummary
  customer : Option CustomerData
  shippingTable : List (String × Rat)
  persistOk : Bool
  new_order_id : String
  now : Int

/-- Result discriminator of `create_order` in src/app/tools/orders.py. -/
inductive CreateStatus where
  | created
  | empty_cart
  | validation_error
  | error
deriving DecidableEq, Repr

/-- Embedding of `create_order` from src/app/tools/orders.py.  Returns the
result discriminator together with the order persisted by
`create_order_record` (`none` when nothing was persisted).  The customer
upsert, audit event, cart clearing and notification email are elided
side effects that no claim mentions. -/
def create_order (env : CreateOrderEnv) (vet_id : String)
    (delivery_mode : String) (delivery_address delivery_zone : Option String) :
    CreateStatus × Option Order :=
  if env.cart.is_empty then (CreateStatus.empty_cart, none)
  else
    match env.customer with
    | none => (CreateStatus.validation_error, none)
    | some customer =>
      match parse_delivery_mode delivery_mode with
      | none => (CreateStatus.validation_error, none)
      | some mode =>
        if mode = DeliveryMode.DELIVERY ∧ truthyStr delivery_address = false then
          (CreateStatus.validation_error, none)
        else if mode = DeliveryMode.DELIVERY ∧ truthyStr delivery_zone = false then
          (CreateStatus.validation_error, none)
        else
          let shippingOpt : Option Rat :=
            if mode = DeliveryMode.DELIVERY ∧ truthyStr delivery_zone = true then
              get_shipping_cost env.shippingTable (delivery_zone.getD "")
            else some 0
          match shippingOpt with
          | none => (CreateStatus.validation_error, none)
          | some shipping_cost =>
            let subtotal := env.cart.total_amount
            let total_amount := subtotal + shipping_cost
            let delivery : DeliveryData :=
              { mode := mode, address := delivery_address,
                zone := if mode = DeliveryMode.DELIVERY then delivery_zone else none }
            let order : Order :=
              { order_id := env.new_order_id, vet_id := vet_id,
                customer := customer,
                delivery := delivery,
                items := env.cart.items, subtotal := subtotal,
                shipping_cost := shipping_cost, total_amount := total_amount,
                currency := env.cart.currency, status := OrderStatus.CREATED,
                payment_method := none, mp_preference_id := none,
                mp_payment_id := none, mp_status := none,
                external_reference := none,
                created_at := env.now, updated_at := env.now }
            if env.persistOk then (CreateStatus.created, some order)
            else (CreateStatus.error, none)

/-- C3: for every non-empty cart and valid customer data, create_order
persists an order whose subtotal is the sum of the cart line subtotals,
whose shipping_cost is 0 for PICKUP and the looked-up zone cost for
DELIVERY, and whose total_amount is subtotal plus shipping_cost; DELIVERY
with a zone missing from the shipping table yields a validation error and
persists no order. -/
theorem C3_create_order_money (env : CreateOrderEnv) (vet_id dm : String)
    (addr zone : Option String) (cust : CustomerData)
    (h_cart : env.cart.is_empty = false)
    (h_cust : env.customer = some cust)
    (h_persist : env.persistOk = true) :
    (parse_delivery_mode dm = some DeliveryMode.PICKUP →
      (create_order env vet_id dm addr zone).1 = CreateStatus.created
      ∧ ∃ o, (create_order env vet_id dm addr zone).2 = some o
          ∧ o.subtotal = (env.cart.items.map CartItem.subtotal).sum
          ∧ o.shipping_cost = 0
          ∧ o.total_amount = o.subtotal + o.shipping_cost)
    ∧ (∀ c, parse_delivery_mode dm = some DeliveryMode.DELIVERY →
        truthyStr addr = true → truthyStr zone = true →
        get_shipping_cost env.shippingTable (zone.getD "") = some c →
        (create_order env vet_id dm addr zone).1 = CreateStatus.created
        ∧ ∃ o, (create_order env vet_id dm addr zone).2 = some o
            ∧ o.subtotal = (env.cart.items.map CartItem.subtotal).sum
            ∧ o.shipping_cost = c
            ∧ o.total_amount = o.subtotal + o.shipping_cost)
    ∧ (parse_delivery_mode dm = some DeliveryMode.DELIVERY →
        truthyStr addr = true → truthyStr zone = true →
        get_shipping_cost env.shippingTable (zone.getD "") = none →
        create_order env vet_id dm addr zone = (CreateStatus.validation_error, none)) := by
  refine ⟨fun hmode => ?_, fun c hmode ha hz hc => ?_, fun hmode ha hz hc => ?_⟩
  · simp [create_order, h_cart, h_cust, hmode, h_persist, CartSummary.total_amount]
  · simp [create_order, h_cart, h_cust, hmode, ha, hz, hc, h_persist,
      CartSummary.total_amount]
  · simp [create_order, h_cart, h_cust, hmode, ha, hz, hc, h_persist]

/-- Sample create_order environment used by concrete witnesses. -/
def sampleCreateEnv : CreateOrderEnv :=
  { cart := { items := [sampleItem], currency := "ARS" },
    customer := some sampleCustomer,
    shippingTable := [("CABA", 500)],
    persistOk := true, new_order_id := "ORD-1", now := 0 }

/-- Witness for C3: a PICKUP order over the sample cart is created. -/
theorem C3_create_order_money_witness :
    parse_delivery_mode "PICKUP" = some DeliveryMode.PICKUP
    ∧ ((create_order sampleCreateEnv "VET001" "PICKUP" none none).1
        = CreateStatus.created
      ∧ ∃ o, (create_order sampleCreateEnv "VET001" "PICKUP" none none).2 = some o
          ∧ o.subtotal = (sampleCreateEnv.cart.items.map CartItem.subtotal).sum
          ∧ o.shipping_cost = 0
          ∧ o.total_amount = o.subtotal + o.shipping_cost) :=
  ⟨by decide,
   (C3_create_order_money sampleCreateEnv "VET001" "PICKUP" none none sampleCustomer
      (by decide) rfl rfl).1 (by decide)⟩

/-- Outcome discriminator of `ensure_valid_mp_token` in
src/app/tools/oauth_mp.py (its `status` field), carrying the access token in
the success case. -/
inductive TokenResult where
  | success (access_token : String)
  | not_connected
  | refresh_failed
  | error
deriving DecidableEq, Repr

/-- Checkout preference returned by the Mercado Pago API, with the fields
`create_payment_link` reads. -/
structure MPPreference where
  id : String
  init_point : Option String
  sandbox_init_point : Option String
deriving DecidableEq, Repr

/-- Result discriminator of `create_payment_link` in src/app/tools/payments.py. -/
inductive PayLinkStatus where
  | success
  | mp_not_connected
  | order_not_found
  | error
deriving DecidableEq, Repr

/-- Environment of `create_payment_link`: the outcome of
`ensure_valid_mp_token`, the order store, the response of the
`_create_mp_preference` POST (`none` embeds a non-2xx response or a raised
exception) and the clock. -/
structure PayLinkEnv where
  tokenResult : TokenResult
  store : OrderStore
  prefResult : Option MPPreference
  now : Int

/-- External reference format, from `create_payment_link` in payments.py and
`Order.generate_external_reference` in schemas.py. -/
def generate_external_reference (vet_id order_id : String) : String :=
  "DTV|" ++ vet_id ++ "|" ++ order_id

/-- Embedding of `create_payment_link` from src/app/tools/payments.py:
resolve a valid merchant token, look the order up, check ownership, create
the Mercado Pago preference, and only then write the preference id,
external reference, payment method and PAYMENT_PENDING_MP status through
`update_order_preference`.  The vet-name lookup only affects display text
and is elided. -/
def create_payment_link (env : PayLinkEnv) (vet_id order_id : String) :
    PayLinkStatus × OrderStore :=
  match env.tokenResult with
  | TokenResult.not_connected => (PayLinkStatus.mp_not_connected, env.store)
  | TokenResult.refresh_failed => (PayLinkStatus.error, env.store)
  | TokenResult.error => (PayLinkStatus.error, env.store)
  | TokenResult.success _ =>
    match env.store order_id with
    | none => (PayLinkStatus.order_not_found, env.store)
    | some order =>
      if order.vet_id ≠ vet_id then (PayLinkStatus.error, env.store)
      else
        let external_reference := generate_external_reference vet_id order_id
        match env.prefResult with
        | none => (PayLinkStatus.error, env.store)
        | some preference =>
          (PayLinkStatus.success,
            (update_order_preference env.store order_id preference.id
              external_reference env.now).2)

/-- C4: when create_payment_link fails because the merchant has no usable
token or because the processor call fails, the order store is left
completely unchanged: no status change, no mp_preference_id, no
external_reference, no payment_method write. -/
theorem C4_payment_link_failure_no_write (env : PayLinkEnv) (vet_id order_id : String)
    (h : (∀ tk, env.tokenResult ≠ TokenResult.success tk) ∨ env.prefResult = none) :
    (create_payment_link env vet_id order_id).2 = env.store := by
  unfold create_payment_link
  cases htk : env.tokenResult with
  | not_connected => rfl
  | refresh_failed => rfl
  | error => rfl
  | success tk =>
    rcases h with h | h
    · exact absurd htk (h tk)
    · cases hord : env.store order_id with
      | none => rfl
      | some order =>
        by_cases hv : order.vet_id ≠ vet_id
        · simp [hv]
        · simp [hv, h]

/-- Sample payment-link environment: the merchant token is valid but the
processor preference call fails. -/
def samplePayEnv : PayLinkEnv :=
  { tokenResult := TokenResult.success "APP_USR-token",
    store := sampleStore, prefResult := none, now := 0 }

/-- Witness for C4: with a failing processor call the sample store is
untouched. -/
theorem C4_payment_link_failure_no_write_witness :
    ((∀ tk, samplePayEnv.tokenResult ≠ TokenResult.success tk)
      ∨ samplePayEnv.prefResult = none)
    ∧ (create_payment_link samplePayEnv "VET001" "ORD-1").2 = samplePayEnv.store :=
  ⟨Or.inr rfl,
   C4_payment_link_failure_no_write samplePayEnv "VET001" "ORD-1" (Or.inr rfl)⟩

/-- Splitting of a character list on a separator, embedding Python
`str.split` with a one-character separator (as used on `external_reference`
in src/app/webhooks/mercadopago.py). -/
def pySplitAux (sep : Char) : List Char → List (List Char)
  | [] => [[]]
  | c :: rest =>
    if c = sep then [] :: pySplitAux sep rest
    else
      match pySplitAux sep rest with
      | [] => [[c]]
      | p :: ps => (c :: p) :: ps

/-- String form of `pySplitAux`, embedding `s.split("|")`-style calls. -/
def pySplit (sep : Char) (s : String) : List String :=
  (pySplitAux sep s.data).map String.mk

/-- A separator-free list splits to itself. -/
theorem pySplitAux_no_sep (sep : Char) (a : List Char) (ha : sep ∉ a) :
    pySplitAux sep a = [a] := by
  induction a with
  | nil => rfl
  | cons c rest ih =>
    have hc : ¬ c = sep := fun hcs => ha (hcs ▸ List.mem_cons_self c rest)
    have hrest : sep ∉ rest := fun hm => ha (List.mem_cons_of_mem c hm)
    simp [pySplitAux, hc, ih hrest]

/-- Splitting peels off a separator-free head segment. -/
theorem pySplitAux_append_sep (sep : Char) (a b : List Char) (ha : sep ∉ a) :
    pySplitAux sep (a ++ sep :: b) = a :: pySplitAux sep b := by
  induction a with
  | nil => simp [pySplitAux]
  | cons c rest ih =>
    have hc : ¬ c = sep := fun hcs => ha (hcs ▸ List.mem_cons_self c rest)
    have hrest : sep ∉ rest := fun hm => ha (List.mem_cons_of_mem c hm)
    simp [pySplitAux, hc, ih hrest]

/-- C5 counterexample: for an order whose vet_id itself contains the "|"
separator, the generated external_reference does not split into exactly
three parts (the code never forbids such a vet_id). -/
theorem C5_external_reference_counterexample :
    (pySplit '|' (generate_external_reference "A|B" "ORD-00000001")).length ≠ 3 := by
  decide

/-- C5 (amended): provided vet_id and order_id contain no "|" character
(order ids generated by create_order are "ORD-" plus hex digits and never
do), the external_reference splits on "|" into exactly the three parts
"DTV", the vet_id and the order_id. -/
theorem C5_external_reference_shape (v o : String)
    (hv : '|' ∉ v.data) (ho : '|' ∉ o.data) :
    pySplit '|' (generate_external_reference v o) = ["DTV", v, o] := by
  obtain ⟨vd⟩ := v
  obtain ⟨od⟩ := o
  have hdata : (generate_external_reference ⟨vd⟩ ⟨od⟩).data
      = ['D', 'T', 'V'] ++ '|' :: (vd ++ '|' :: od) := by
    show (('D' :: 'T' :: 'V' :: '|' :: (vd ++ ['|'])) ++ od : List Char) = _
    simp
  unfold pySplit
  rw [hdata, pySplitAux_append_sep _ _ _ (by decide),
    pySplitAux_append_sep _ _ _ hv, pySplitAux_no_sep _ _ ho]
  rfl

/-- Witness for C5 (amended) at a concrete pipe-free vet and order id. -/
theorem C5_external_reference_shape_witness :
    ('|' ∉ "VET001".data) ∧ ('|' ∉ "ORD-1".data)
    ∧ pySplit '|' (generate_external_reference "VET001" "ORD-1")
        = ["DTV", "VET001", "ORD-1"] :=
  ⟨by decide, by decide,
   C5_external_reference_shape "VET001" "ORD-1" (by decide) (by decide)⟩

/-- Refresh-exchange response shape from `_refresh_mp_token` in
src/app/tools/oauth_mp.py: `refresh_token` may be omitted by the processor
(the source reads it with `.get` and a fallback). -/
structure RefreshResponse where
  access_token : String
  refresh_token : Option String
  expires_in : Int
deriving DecidableEq, Repr

/-- Environment of `ensure_valid_mp_token`: the stored token returned by the
token store, the response of the `_refresh_mp_token` POST (`none` embeds a
non-200 response or a raised exception) and the clock. -/
structure EnsureTokenEnv where
  stored : Option StoredToken
  refreshResult : Option RefreshResponse
  now : Int

/-- Outcome of `ensure_valid_mp_token`: the returned discriminator, the
vault contents afterwards, and whether a refresh-token exchange was
attempted. -/
structure EnsureTokenOutcome where
  result : TokenResult
  vault : Option StoredToken
  refreshed : Bool
deriving DecidableEq, Repr

/-- Embedding of `ensure_valid_mp_token` from src/app/tools/oauth_mp.py:
return the stored token while `expires_at` minus the 5-minute (300 s)
margin is still after now; otherwise attempt a refresh exchange and, on
success, persist a token that keeps the old `refresh_token` when the
response omits one. -/
def ensure_valid_mp_token (env : EnsureTokenEnv) (vet_id : String) :
    EnsureTokenOutcome :=
  match env.stored with
  | none =>
      { result := TokenResult.not_connected, vault := none, refreshed := false }
  | some tokens =>
    if tokens.expires_at - 300 > env.now then
      { result := TokenResult.success tokens.access_token,
        vault := some tokens, refreshed := false }
    else
      match env.refreshResult with
      | none =>
          { result := TokenResult.refresh_failed,
            vault := some tokens, refreshed := true }
      | some new_tokens =>
          let updated : StoredToken :=
            { vet_id := vet_id,
              access_token := new_tokens.access_token,
              refresh_token := new_tokens.refresh_token.getD tokens.refresh_token,
              expires_at := env.now + new_tokens.expires_in,
              mp_user_id := tokens.mp_user_id,
              updated_at := env.now }
          { result := TokenResult.success updated.access_token,
            vault := some updated, refreshed := true }

/-- C7: for a merchant whose stored token has expires_at more than 5 minutes
after the current time, ensure_valid performs no refresh-token exchange and
returns the stored access_token, leaving the stored token as it was. -/
theorem C7_fresh_token_not_refreshed (env : EnsureTokenEnv) (vet_id : String)
    (t : StoredToken) (hstored : env.stored = some t)
    (hfresh : env.now + 300 < t.expires_at) :
    (ensure_valid_mp_token env vet_id).refreshed = false
    ∧ (ensure_valid_mp_token env vet_id).result = TokenResult.success t.access_token
    ∧ (ensure_valid_mp_token env vet_id).vault = some t := by
  have hcond : t.expires_at - 300 > env.now := by omega
  simp [ensure_valid_mp_token, hstored, hcond]

/-- Sample stored token expiring at time 1000 (more than 5 minutes after the
sample clock 0). -/
def sampleToken : StoredToken :=
  { vet_id := "VET001", access_token := "APP_USR-old",
    refresh_token := "TG-refresh", expires_at := 1000,
    mp_user_id := "123", updated_at := 0 }

/-- Witness for C7: at time 0 the sample token (expiry 1000 > 300) is
returned unrefreshed. -/
theorem C7_fresh_token_not_refreshed_witness :
    ((⟨some sampleToken, none, 0⟩ : EnsureTokenEnv).stored = some sampleToken)
    ∧ ((0 : Int) + 300 < sampleToken.expires_at)
    ∧ (ensure_valid_mp_token ⟨some sampleToken, none, 0⟩ "VET001").refreshed = false
    ∧ (ensure_valid_mp_token ⟨some sampleToken, none, 0⟩ "VET001").result
        = TokenResult.success sampleToken.access_token
    ∧ (ensure_valid_mp_token ⟨some sampleToken, none, 0⟩ "VET001").vault
        = some sampleToken :=
  ⟨rfl, by decide,
   (C7_fresh_token_not_refreshed ⟨some sampleToken, none, 0⟩ "VET001" sampleToken
      rfl (by decide)).1,
   (C7_fresh_token_not_refreshed ⟨some sampleToken, none, 0⟩ "VET001" sampleToken
      rfl (by decide)).2.1,
   (C7_fresh_token_not_refreshed ⟨some sampleToken, none, 0⟩ "VET001" sampleToken
      rfl (by decide)).2.2⟩

/-- C8: for a merchant whose stored token is within 5 minutes of expiry (or
past it), when the refresh exchange succeeds but omits a refresh_token,
ensure_valid persists a new token carrying the previously stored
refresh_token and returns the new access token. -/
theorem C8_refresh_keeps_old_refresh_token (env : EnsureTokenEnv) (vet_id : String)
    (t : StoredToken) (r : RefreshResponse)
    (hstored : env.stored = some t)
    (hexp : t.expires_at ≤ env.now + 300)
    (hr : env.refreshResult = some r)
    (homit : r.refresh_token = none) :
    (ensure_valid_mp_token env vet_id).refreshed = true
    ∧ (ensure_valid_mp_token env vet_id).result = TokenResult.success r.access_token
    ∧ ∃ u, (ensure_valid_mp_token env vet_id).vault = some u
        ∧ u.refresh_token = t.refresh_token
        ∧ u.access_token = r.access_token := by
  have hcond : ¬ (t.expires_at - 300 > env.now) := by omega
  simp [ensure_valid_mp_token, hstored, hcond, hr, homit]

/-- Witness for C8: a token expiring in 2 minutes (120 s) is refreshed and
the old refresh_token is carried forward when the response omits one. -/
theorem C8_refresh_keeps_old_refresh_token_witness :
    ((⟨some { sampleToken with expires_at := 120 },
        some ⟨"APP_USR-new", none, 21600⟩, 0⟩ : EnsureTokenEnv).stored
      = some { sampleToken with expires_at := 120 })
    ∧ ((120 : Int) ≤ 0 + 300)
    ∧ (ensure_valid_mp_token
        ⟨some { sampleToken with expires_at := 120 },
          some ⟨"APP_USR-new", none, 21600⟩, 0⟩ "VET001").refreshed = true
    ∧ (ensure_valid_mp_token
        ⟨some { sampleToken with expires_at := 120 },
          some ⟨"APP_USR-new", none, 21600⟩, 0⟩ "VET001").result
        = TokenResult.success "APP_USR-new"
    ∧ ∃ u, (ensure_valid_mp_token
        ⟨some { sampleToken with expires_at := 120 },
          some ⟨"APP_USR-new", none, 21600⟩, 0⟩ "VET001").vault = some u
        ∧ u.refresh_token = { sampleToken with expires_at := 120 }.refresh_token
        ∧ u.access_token = "APP_USR-new" :=
  ⟨rfl, by decide,
   (C8_refresh_keeps_old_refresh_token _ "VET001" { sampleToken with expires_at := 120 }
      ⟨"APP_USR-new", none, 21600⟩ rfl (by decide) rfl rfl).1,
   (C8_refresh_keeps_old_refresh_token _ "VET001" { sampleToken with expires_at := 120 }
      ⟨"APP_USR-new", none, 21600⟩ rfl (by decide) rfl rfl).2.1,
   (C8_refresh_keeps_old_refresh_token _ "VET001" { sampleToken with expires_at := 120 }
      ⟨"APP_USR-new", none, 21600⟩ rfl (by decide) rfl rfl).2.2⟩

/-- Local JSON-file token store contents, from `LocalTokenStore` in
src/app/infra/token_store.py: a dict keyed by vet_id. -/
structure LocalTokenStore where
  data : List (String × StoredToken)
deriving DecidableEq, Repr

/-- Embedding of `LocalTokenStore.delete_token`: read the dict; when the
vet_id is present, delete the entry and return the write result (the file
is modelled as keeping its old contents when the write fails); when the
vet_id is absent, return `True` without writing. -/
def LocalTokenStore.delete_token (store : LocalTokenStore) (vet_id : String)
    (writeOk : Bool) : Bool × LocalTokenStore :=
  if (store.data.find? (fun kv => kv.1 == vet_id)).isSome then
    let newData := store.data.filter (fun kv => kv.1 != vet_id)
    if writeOk then (true, ⟨newData⟩) else (false, store)
  else
    (true, store)

/-- Google Secret Manager backend as seen by `SecretManagerTokenStore`: a
map from secret ids to payloads.  This client is external to the
repository; its `delete_secret` removes the named secret and raises
NotFound when the secret does not exist (the Secret Manager API behavior
that the store's try/except translates to its `bool` result). -/
structure SecretManagerClient where
  secrets : String → Option String

/-- Secret id naming from `SecretManagerTokenStore._secret_id`. -/
def secret_id (vet_id : String) : String := "dtv-token-" ++ vet_id

/-- Deletion call on the external Secret Manager client; `none` embeds the
NotFound exception raised for an absent secret. -/
def SecretManagerClient.delete_secret (c : SecretManagerClient)
    (secret : String) : Option SecretManagerClient :=
  match c.secrets secret with
  | none => none
  | some _ => some ⟨fun k => if k = secret then none else c.secrets k⟩

/-- Embedding of `SecretManagerTokenStore.delete_token`: call
`delete_secret` and return `True`; any exception (including NotFound for an
absent secret) is caught and mapped to `False`, leaving the backend as it
was. -/
def SecretManagerTokenStore.delete_token (c : SecretManagerClient)
    (vet_id : String) : Bool × SecretManagerClient :=
  match c.delete_secret (secret_id vet_id) with
  | none => (false, c)
  | some c1 => (true, c1)

/-- C9 counterexample: deleting an absent token through the Secret Manager
token store returns failure, not success, so deletion is not idempotent in
every token-store implementation. -/
theorem C9_delete_absent_counterexample :
    (SecretManagerTokenStore.delete_token ⟨fun _ => none⟩ "VET001").1 = false :=
  rfl

/-- C9 (amended): deleting an absent token is success and leaves the
contents unchanged in the local file store; the Secret Manager store maps
the backend's NotFound for an absent secret to failure, also leaving the
backend unchanged. -/
theorem C9_delete_absent_token (store : LocalTokenStore) (vet_id : String)
    (writeOk : Bool)
    (habsent : store.data.find? (fun kv => kv.1 == vet_id) = none) :
    LocalTokenStore.delete_token store vet_id writeOk = (true, store)
    ∧ ∀ c : SecretManagerClient, c.secrets (secret_id vet_id) = none →
        SecretManagerTokenStore.delete_token c vet_id = (false, c) := by
  constructor
  · simp [LocalTokenStore.delete_token, habsent]
  · intro c hc
    simp [SecretManagerTokenStore.delete_token, SecretManagerClient.delete_secret, hc]

/-- Witness for C9 (amended) on empty stores. -/
theorem C9_delete_absent_token_witness :
    ((⟨[]⟩ : LocalTokenStore).data.find? (fun kv => kv.1 == "VET001") = none)
    ∧ (LocalTokenStore.delete_token ⟨[]⟩ "VET001" true = (true, ⟨[]⟩)
      ∧ ∀ c : SecretManagerClient, c.secrets (secret_id "VET001") = none →
          SecretManagerTokenStore.delete_token c "VET001" = (false, c)) :=
  ⟨rfl, C9_delete_absent_token ⟨[]⟩ "VET001" true rfl⟩

/-- Webhook envelope, from `MPWebhookPayload` in
src/app/webhooks/mercadopago.py; `ty` embeds the `type` field and
`paymentId` embeds `str(payload.data.get("id", ""))`. -/
structure MPWebhookPayload where
  ty : String
  action : String
  paymentId : String
deriving DecidableEq, Repr

/-- Audit record appended by `log_event` during webhook processing. -/
structure AuditEvent where
  event_type : String
  order_id : String
  vet_id : String
deriving DecidableEq, Repr

/-- Payment details fetched from the processor by
`_process_payment_with_vet` (the fields the handler reads). -/
structure MPPaymentData where
  external_reference : String
  status : String
  status_detail : String
deriving DecidableEq, Repr

/-- Environment of one webhook delivery: the outcome of
`ensure_valid_mp_token` for the merchant and the response of the
`GET /v1/payments/{id}` call (`none` embeds a non-200 response or a raised
exception). -/
structure WebhookEnv where
  tokenResult : TokenResult
  mpFetch : Option MPPaymentData
  now : Int

/-- Mutable state a webhook delivery can touch: the process-local
`_processed_notifications` set, the order store, the audit log and the
list of orders for which the approved-payment notification fan-out fired. -/
structure WebhookState where
  seen : List String
  store : OrderStore
  events : List AuditEvent
  notifications : List String

/-- Results a webhook delivery answers with (the `status` field of the
returned dict, with its `reason` where the source sets one). -/
inductive WebhookResult where
  | ignored (reason : Option String)
  | duplicate
  | processed
  | error (reason : Option String)
deriving DecidableEq, Repr

/-- Embedding of `_process_payment_with_vet` from
src/app/webhooks/mercadopago.py: resolve the merchant token, fetch the
payment, validate and split the external reference, check the embedded
vet id, write the mapped statuses through `update_order_payment_status`,
append the PAYMENT_RECEIVED audit event, and fire the approved-payment
fan-out when the processor status is "approved". -/
def process_payment_with_vet (env : WebhookEnv) (st : WebhookState)
    (vet_id payment_id : String) : WebhookResult × WebhookState :=
  match env.tokenResult with
  | TokenResult.success _ =>
    match env.mpFetch with
    | none => (WebhookResult.error (some "mp_api_error"), st)
    | some payment_data =>
      let external_reference := payment_data.external_reference
      let mp_status := payment_data.status
      if external_reference.data.isEmpty
          || !(List.isPrefixOf "DTV|".data external_reference.data) then
        (WebhookResult.ignored (some "invalid_reference"), st)
      else
        match pySplit '|' external_reference with
        | [_, ref_vet_id, order_id] =>
          if ref_vet_id ≠ vet_id then
            (WebhookResult.error (some "vet_mismatch"), st)
          else
            let order_status := map_mp_status_to_order_status mp_status
            let mp_payment_status := map_mp_status mp_status
            let store1 := (sheets_update_order_payment_status st.store order_id
              payment_id mp_payment_status order_status env.now).2
            let ev : AuditEvent :=
              { event_type := "PAYMENT_RECEIVED", order_id := order_id,
                vet_id := vet_id }
            let st1 : WebhookState :=
              { st with store := store1, events := st.events ++ [ev] }
            let st2 : WebhookState :=
              if mp_status = "approved"
              then { st1 with notifications := st1.notifications ++ [order_id] }
              else st1
            (WebhookResult.processed, st2)
        | _ => (WebhookResult.ignored (some "invalid_reference_format"), st)
  | _ => (WebhookResult.error (some "no_token"), st)

/-- Idempotency key of the merchant-scoped route, from
`mercadopago_webhook_v2`: `f"{vet_id}:{payload.action}:{payment_id}"`. -/
def idempotency_key_v2 (vet_id action payment_id : String) : String :=
  vet_id ++ ":" ++ action ++ ":" ++ payment_id

/-- Embedding of the `/mp/webhook/v2` handler `mercadopago_webhook_v2`:
ignore non-payment envelopes and missing payment ids, answer `duplicate`
when the idempotency key was already seen, otherwise record the key
(before any processing) and process the payment. -/
def mercadopago_webhook_v2 (env : WebhookEnv) (st : WebhookState)
    (vet_id : String) (payload : MPWebhookPayload) :
    WebhookResult × WebhookState :=
  if payload.ty ≠ "payment" then (WebhookResult.ignored none, st)
  else if payload.paymentId.data.isEmpty then (WebhookResult.ignored none, st)
  else if idempotency_key_v2 vet_id payload.action payload.paymentId ∈ st.seen then
    (WebhookResult.duplicate, st)
  else
    process_payment_with_vet env
      { st with seen :=
          idempotency_key_v2 vet_id payload.action payload.paymentId :: st.seen }
      vet_id payload.paymentId

/-- Processing a payment never touches the idempotency set. -/
theorem process_payment_with_vet_seen (env : WebhookEnv) (st : WebhookState)
    (vet_id payment_id : String) :
    (process_payment_with_vet env st vet_id payment_id).2.seen = st.seen := by
  unfold process_payment_with_vet
  cases env.tokenResult <;> try rfl
  cases env.mpFetch with
  | none => rfl
  | some payment_data =>
    dsimp only
    split
    · rfl
    · split
      · split
        · rfl
        · split <;> rfl
      · rfl

/-- A key once in the idempotency set stays there across any later webhook
delivery. -/
theorem webhook_v2_seen_monotone (env : WebhookEnv) (st : WebhookState)
    (vet_id : String) (payload : MPWebhookPayload) (key : String)
    (hmem : key ∈ st.seen) :
    key ∈ (mercadopago_webhook_v2 env st vet_id payload).2.seen := by
  unfold mercadopago_webhook_v2
  split
  · exact hmem
  · split
    · exact hmem
    · split
      · exact hmem
      · rw [process_payment_with_vet_seen]
        exact List.mem_cons_of_mem _ hmem

/-- A webhook delivery whose key is already in the idempotency set is
answered as a duplicate with the state untouched. -/
theorem webhook_v2_replay_duplicate (env : WebhookEnv) (st : WebhookState)
    (vet_id : String) (payload : MPWebhookPayload)
    (hty : payload.ty = "payment")
    (hid : payload.paymentId.data.isEmpty = false)
    (hmem : idempotency_key_v2 vet_id payload.action payload.paymentId ∈ st.seen) :
    mercadopago_webhook_v2 env st vet_id payload = (WebhookResult.duplicate, st) := by
  unfold mercadopago_webhook_v2
  rw [if_neg (by simp [hty]), if_neg (by simp [hid]), if_pos hmem]

/-- After any payment delivery, its idempotency key is in the set. -/
theorem webhook_v2_records_key (env : WebhookEnv) (st : WebhookState)
    (vet_id : String) (payload : MPWebhookPayload)
    (hty : payload.ty = "payment")
    (hid : payload.paymentId.data.isEmpty = false) :
    idempotency_key_v2 vet_id payload.action payload.paymentId
      ∈ (mercadopago_webhook_v2 env st vet_id payload).2.seen := by
  unfold mercadopago_webhook_v2
  rw [if_neg (by simp [hty]), if_neg (by simp [hid])]
  split
  · assumption
  · rw [process_payment_with_vet_seen]
    exact List.mem_cons_self _ _

/-- C6: two deliveries to the merchant-scoped webhook with the same
merchant id, action and payment id: the second is answered as a duplicate
and performs no second order update, no second audit event and no second
notification (the state after the second call is the state after the
first). -/
theorem C6_webhook_dedup (env env2 : WebhookEnv) (st : WebhookState)
    (vet_id : String) (payload payload2 : MPWebhookPayload)
    (hty : payload.ty = "payment") (hty2 : payload2.ty = "payment")
    (hact : payload2.action = payload.action)
    (hpid : payload2.paymentId = payload.paymentId)
    (hid : payload.paymentId.data.isEmpty = false) :
    mercadopago_webhook_v2 env2 (mercadopago_webhook_v2 env st vet_id payload).2
        vet_id payload2
      = (WebhookResult.duplicate, (mercadopago_webhook_v2 env st vet_id payload).2) := by
  have hkey : idempotency_key_v2 vet_id payload2.action payload2.paymentId
      = idempotency_key_v2 vet_id payload.action payload.paymentId := by
    rw [hact, hpid]
  apply webhook_v2_replay_duplicate
  · exact hty2
  · rw [hpid]; exact hid
  · rw [hkey]; exact webhook_v2_records_key env st vet_id payload hty hid

/-- Sample payment webhook payload used by concrete witnesses. -/
def samplePayload : MPWebhookPayload :=
  { ty := "payment", action := "payment.updated", paymentId := "123456789" }

/-- Sample webhook environment in which processing fails for lack of a
merchant token. -/
def sampleWebhookEnvNoToken : WebhookEnv :=
  { tokenResult := TokenResult.not_connected, mpFetch := none, now := 0 }

/-- Sample initial webhook state over the one-order sample store. -/
def sampleWebhookState : WebhookState :=
  { seen := [], store := sampleStore, events := [], notifications := [] }

/-- Witness for C6: replaying the sample payload is answered as a
duplicate with the state unchanged. -/
theorem C6_webhook_dedup_witness :
    samplePayload.ty = "payment"
    ∧ samplePayload.paymentId.data.isEmpty = false
    ∧ mercadopago_webhook_v2 sampleWebhookEnvNoToken
        (mercadopago_webhook_v2 sampleWebhookEnvNoToken sampleWebhookState
          "VET001" samplePayload).2 "VET001" samplePayload
      = (WebhookResult.duplicate,
         (mercadopago_webhook_v2 sampleWebhookEnvNoToken sampleWebhookState
           "VET001" samplePayload).2) :=
  ⟨rfl, by decide,
   C6_webhook_dedup sampleWebhookEnvNoToken sampleWebhookEnvNoToken
     sampleWebhookState "VET001" samplePayload samplePayload rfl rfl rfl rfl
     (by decide)⟩

/-- C10: the merchant-scoped handler records the idempotency key before
processing, so when the first processing attempt fails internally (no
merchant token, or the processor fetch fails or raises), the order store,
audit log and notifications are untouched, the key is recorded anyway, the
key survives any later deliveries, and every later replay of the identical
notification is answered as a duplicate with no state change. -/
theorem C10_failed_first_attempt_poisons_replays (env : WebhookEnv)
    (st : WebhookState) (vet_id : String) (payload : MPWebhookPayload)
    (hty : payload.ty = "payment")
    (hid : payload.paymentId.data.isEmpty = false)
    (hfail : (∀ tk, env.tokenResult ≠ TokenResult.success tk) ∨ env.mpFetch = none) :
    ((mercadopago_webhook_v2 env st vet_id payload).2.store = st.store
      ∧ (mercadopago_webhook_v2 env st vet_id payload).2.events = st.events
      ∧ (mercadopago_webhook_v2 env st vet_id payload).2.notifications
          = st.notifications)
    ∧ idempotency_key_v2 vet_id payload.action payload.paymentId
        ∈ (mercadopago_webhook_v2 env st vet_id payload).2.seen
    ∧ (∀ env' st' v' q,
        idempotency_key_v2 vet_id payload.action payload.paymentId ∈ st'.seen →
        idempotency_key_v2 vet_id payload.action payload.paymentId
          ∈ (mercadopago_webhook_v2 env' st' v' q).2.seen)
    ∧ (∀ env' st',
        idempotency_key_v2 vet_id payload.action payload.paymentId ∈ st'.seen →
        mercadopago_webhook_v2 env' st' vet_id payload
          = (WebhookResult.duplicate, st')) := by
  refine ⟨?_, webhook_v2_records_key env st vet_id payload hty hid,
    fun env' st' v' q => webhook_v2_seen_monotone env' st' v' q _,
    fun env' st' hmem =>
      webhook_v2_replay_duplicate env' st' vet_id payload hty hid hmem⟩
  have hproc : ∀ st0 : WebhookState,
      (process_payment_with_vet env st0 vet_id payload.paymentId).2 = st0 := by
    intro st0
    rcases hfail with h | h
    · cases htk : env.tokenResult with
      | success tk => exact absurd htk (h tk)
      | not_connected => simp [process_payment_with_vet, htk]
      | refresh_failed => simp [process_payment_with_vet, htk]
      | error => simp [process_payment_with_vet, htk]
    · cases htk : env.tokenResult <;>
        simp [process_payment_with_vet, htk, h]
  have hst : (mercadopago_webhook_v2 env st vet_id payload).2 = st
      ∨ (mercadopago_webhook_v2 env st vet_id payload).2
        = { st with seen :=
              idempotency_key_v2 vet_id payload.action payload.paymentId :: st.seen } := by
    unfold mercadopago_webhook_v2
    rw [if_neg (by simp [hty]), if_neg (by simp [hid])]
    split
    · exact Or.inl rfl
    · exact Or.inr (hproc _)
  rcases hst with h | h <;> rw [h] <;> exact ⟨rfl, rfl, rfl⟩

/-- Witness for C10: a delivery whose processing fails for lack of a
merchant token leaves the sample state untouched apart from recording the
key, and replays are answered as duplicates. -/
theorem C10_failed_first_attempt_poisons_replays_witness :
    samplePayload.ty = "payment"
    ∧ samplePayload.paymentId.data.isEmpty = false
    ∧ ((∀ tk, sampleWebhookEnvNoToken.tokenResult ≠ TokenResult.success tk)
        ∨ sampleWebhookEnvNoToken.mpFetch = none)
    ∧ ((mercadopago_webhook_v2 sampleWebhookEnvNoToken sampleWebhookState
          "VET001" samplePayload).2.store = sampleWebhookState.store
      ∧ (mercadopago_webhook_v2 sampleWebhookEnvNoToken sampleWebhookState
          "VET001" samplePayload).2.events = sampleWebhookState.events
      ∧ (mercadopago_webhook_v2 sampleWebhookEnvNoToken sampleWebhookState
          "VET001" samplePayload).2.notifications
          = sampleWebhookState.notifications)
    ∧ idempotency_key_v2 "VET001" samplePayload.action samplePayload.paymentId
        ∈ (mercadopago_webhook_v2 sampleWebhookEnvNoToken sampleWebhookState
            "VET001" samplePayload).2.seen :=
  ⟨rfl, by decide, Or.inr rfl,
   (C10_failed_first_attempt_poisons_replays sampleWebhookEnvNoToken
      sampleWebhookState "VET001" samplePayload rfl (by decide) (Or.inr rfl)).1,
   (C10_failed_first_attempt_poisons_replays sampleWebhookEnvNoToken
      sampleWebhookState "VET001" samplePayload rfl (by decide) (Or.inr rfl)).2.1⟩

end DirectToVet
